import Mathlib

/-!
Verification of the io-react-native-secure-storage key-value store.

The iOS backend (`src/ios`, `src/unnamed/part_001`) stores items in the
system Keychain as generic-password entries keyed by (service, account).
We embed the Keychain as a list of items and the four Security-framework
primitives the code calls (SecItemAdd, SecItemUpdate, SecItemCopyMatching,
SecItemDelete) as pure state transformers, then translate the methods of
class SecureStorage over that state.  Bytes are modelled as `List Nat`.
-/

/-- One Keychain generic-password item, as created by SecureStorage.put:
service (kSecAttrService), account (kSecAttrAccount), data (kSecValueData). -/
structure KCItem where
  service : String
  account : String
  data : List Nat
deriving DecidableEq, Repr

/-- Keychain state: the set of generic-password items, as a list. -/
abbrev Keychain := List KCItem

/-- OSStatus constant errSecSuccess. -/
def errSecSuccess : Int := 0

/-- OSStatus constant errSecDuplicateItem. -/
def errSecDuplicateItem : Int := -25299

/-- OSStatus constant errSecItemNotFound. -/
def errSecItemNotFound : Int := -25300

/-- Whether an item matches a query on kSecAttrService and kSecAttrAccount. -/
def matchesKey (service account : String) (it : KCItem) : Bool :=
  it.service == service && it.account == account

/-- SecItemAdd for a generic-password query carrying service, account and
data: fails with errSecDuplicateItem when an item with the same primary key
(service, account) already exists, otherwise inserts the item. -/
def secItemAdd (service account : String) (data : List Nat) (kc : Keychain) :
    Int × Keychain :=
  if kc.any (matchesKey service account) then (errSecDuplicateItem, kc)
  else (errSecSuccess, kc ++ [⟨service, account, data⟩])

/-- SecItemUpdate for a query on (service, account), replacing kSecValueData:
updates every matching item, or fails with errSecItemNotFound. -/
def secItemUpdate (service account : String) (newData : List Nat)
    (kc : Keychain) : Int × Keychain :=
  if kc.any (matchesKey service account) then
    (errSecSuccess,
      kc.map fun it =>
        if matchesKey service account it then { it with data := newData } else it)
  else (errSecItemNotFound, kc)

/-- SecItemCopyMatching for a single item on (service, account) with
kSecReturnData: returns the data of the first match, or errSecItemNotFound. -/
def secItemCopyMatchingOne (service account : String) (kc : Keychain) :
    Int × Option (List Nat) :=
  match kc.find? (matchesKey service account) with
  | some it => (errSecSuccess, some it.data)
  | none => (errSecItemNotFound, none)

/-- SecItemDelete for a query on (service, account): deletes every matching
item, or fails with errSecItemNotFound when none matches. -/
def secItemDeleteKey (service account : String) (kc : Keychain) :
    Int × Keychain :=
  if kc.any (matchesKey service account) then
    (errSecSuccess, kc.filter fun it => !(matchesKey service account it))
  else (errSecItemNotFound, kc)

/-- SecItemDelete for a query on the service alone: deletes every item of
the service, or fails with errSecItemNotFound when the service has none. -/
def secItemDeleteService (service : String) (kc : Keychain) : Int × Keychain :=
  if kc.any (fun it => it.service == service) then
    (errSecSuccess, kc.filter fun it => !(it.service == service))
  else (errSecItemNotFound, kc)

/-- SecItemCopyMatching with kSecMatchLimitAll and kSecReturnAttributes on a
service: all items of the service, or errSecItemNotFound when there are none. -/
def secItemCopyMatchingAll (service : String) (kc : Keychain) :
    Int × List KCItem :=
  match kc.filter (fun it => it.service == service) with
  | [] => (errSecItemNotFound, [])
  | l => (errSecSuccess, l)

/-- Message lookup standing for SecCopyErrorMessageString. -/
def secCopyErrorMessageString (status : Int) : Option String :=
  some (toString status)

/-- Error wrapper from src/unnamed/part_000: description and OSStatus code. -/
structure SecureStorageError where
  description : String
  code : Int
deriving DecidableEq, Repr

/-- SecureStorage.put (src/unnamed/part_001 lines 23-38): SecItemAdd, then,
on errSecDuplicateItem, SecItemUpdate with the new data; any other non-success
status is thrown as a SecureStorageError. -/
def SecureStorage.put (serviceName key : String) (data : List Nat)
    (kc : Keychain) : Except SecureStorageError Keychain :=
  let r0 := secItemAdd serviceName key data kc
  let r :=
    if r0.1 = errSecDuplicateItem then secItemUpdate serviceName key data r0.2
    else r0
  if r.1 = errSecSuccess then .ok r.2
  else .error ⟨(secCopyErrorMessageString r.1).getD "", r.1⟩

/-- SecureStorage.get (src/unnamed/part_001 lines 44-63): SecItemCopyMatching;
errSecItemNotFound yields nil (no error), success yields the data. -/
def SecureStorage.get (serviceName key : String) (kc : Keychain) :
    Except SecureStorageError (Option (List Nat)) :=
  let r := secItemCopyMatchingOne serviceName key kc
  if r.1 = errSecItemNotFound then .ok none
  else if r.1 = errSecSuccess then .ok r.2
  else .error ⟨(secCopyErrorMessageString r.1).getD "", r.1⟩

/-- SecureStorage.remove (src/unnamed/part_001 lines 69-82): SecItemDelete on
the key; errSecItemNotFound is ignored. -/
def SecureStorage.remove (serviceName key : String) (kc : Keychain) :
    Except SecureStorageError Keychain :=
  let r := secItemDeleteKey serviceName key kc
  if r.1 = errSecSuccess ∨ r.1 = errSecItemNotFound then .ok r.2
  else .error ⟨(secCopyErrorMessageString r.1).getD "", r.1⟩

/-- SecureStorage.clear (src/unnamed/part_001 lines 87-94): SecItemDelete on
the whole service; errSecItemNotFound is ignored. -/
def SecureStorage.clear (serviceName : String) (kc : Keychain) :
    Except SecureStorageError Keychain :=
  let r := secItemDeleteService serviceName kc
  if r.1 = errSecSuccess ∨ r.1 = errSecItemNotFound then .ok r.2
  else .error ⟨(secCopyErrorMessageString r.1).getD "", r.1⟩

/-- SecureStorage.keys (src/unnamed/part_001 lines 99-125): SecItemCopyMatching
with kSecMatchLimitAll; errSecItemNotFound yields the empty list, success
yields the kSecAttrAccount of each returned item. -/
def SecureStorage.keys (serviceName : String) (kc : Keychain) :
    Except SecureStorageError (List String) :=
  let r := secItemCopyMatchingAll serviceName kc
  if r.1 = errSecItemNotFound then .ok []
  else if r.1 = errSecSuccess then .ok (r.2.map fun it => it.account)
  else .error ⟨(secCopyErrorMessageString r.1).getD "", r.1⟩

/-!
Android react-native bridge (src/unnamed/part_006, and the earlier variant in
the second document of src/unnamed/part_005).  The module holds a
forceManualEncryption flag and a SecureStorage reference created lazily
(Kotlin by lazy) on the first access: the builder runs once with the flag
current at that moment, a thrown exception is caught and replaced by null,
and the cached result (object or null) is reused for the whole module
lifetime without ever re-running the builder.  The com.pagopa.securestorage
SecureStorage implementation is not part of this tree, so the built object
is recorded by the flag the bridge passed to its builder, and each bridge
method takes the outcome of its underlying storage call as a parameter.
-/

/-- Result of SecureStorage.Builder(context, dir)
.setEnforceManualEncryption(flag).build() as the bridge observes it: the flag
the builder was given (part_006 lines 30-32). -/
structure BuiltStorage where
  enforceManualEncryption : Bool
deriving DecidableEq, Repr

/-- Error kinds of the Android ModuleException enums (part_006 lines 203-213
and part_005 lines 194-202). -/
inductive ErrorKind where
  | VALUE_NOT_FOUND
  | GET_FAILED
  | PUT_FAILED
  | CLEAR_FAILED
  | REMOVE_FAILED
  | KEYS_RETRIEVAL_FAILED
  | SECURE_STORE_NOT_INITIALIZED
  | TEST_EXCEPTION
deriving DecidableEq, Repr

/-- Outcome of a react-native promise: resolved with a value, or rejected
with an error kind and the userInfo key-value pairs passed along. -/
inductive PromiseOutcome (α : Type) where
  | resolved (value : α)
  | rejected (code : ErrorKind) (userInfo : List (String × String))
deriving DecidableEq, Repr

/-- Constant ERROR_USER_INFO_KEY of the Android modules. -/
def ERROR_USER_INFO_KEY : String := "error"

/-- Mutable state of IoReactNativeSecureStorageModule: the
forceManualEncryption field, the lazy secureStorage cell (none while the
initializer has not run, some r once it cached result r), and a count of how
often the builder has been run. -/
structure ModuleState where
  forceManualEncryption : Bool
  lazyStorage : Option (Option BuiltStorage)
  buildAttempts : Nat
deriving DecidableEq, Repr

/-- State of a freshly constructed module (part_006 line 19). -/
def ModuleState.init : ModuleState := ModuleState.mk false none 0

/-- The Kotlin by lazy secureStorage property (part_006 lines 28-36): on the
first access run the builder with the current flag, catching any exception as
null; afterwards return the cached result without re-running the builder.
buildOk tells whether builder attempt number n (hardware key access included)
would succeed. -/
def resolveStorage (buildOk : Nat → Bool) (s : ModuleState) :
    Option BuiltStorage × ModuleState :=
  match s.lazyStorage with
  | some r => (r, s)
  | none =>
    let r := if buildOk s.buildAttempts then
        some (BuiltStorage.mk s.forceManualEncryption) else none
    (r, { s with lazyStorage := some r,
                 buildAttempts := s.buildAttempts + 1 })

/-- Bridge setEnforceManualEncryption (part_006 lines 45-49): store the
boolean and resolve. -/
def setEnforceManualEncryption (isEnforced : Bool) (s : ModuleState) :
    ModuleState :=
  { s with forceManualEncryption := isEnforced }

/-- Shared body of the bridge methods put, clear and remove (part_006 lines
55-139): resolve the lazy storage, reject with SECURE_STORE_NOT_INITIALIZED
when it is null, run the underlying operation (inner gives its outcome, an
exception being its message), resolve null on success, and otherwise reject
with the catch kind of the method plus the (error, message) pair. -/
def moduleOp (catchKind : ErrorKind) (buildOk : Nat → Bool)
    (inner : BuiltStorage → Except String Unit) (s : ModuleState) :
    PromiseOutcome Unit × ModuleState :=
  let p := resolveStorage buildOk s
  match p.1 with
  | none => (.rejected .SECURE_STORE_NOT_INITIALIZED [], p.2)
  | some b =>
    match inner b with
    | .ok _ => (.resolved (), p.2)
    | .error msg => (.rejected catchKind [(ERROR_USER_INFO_KEY, msg)], p.2)

/-- Bridge put (part_006 lines 55-71): catch kind PUT_FAILED. -/
def IoReactNativeSecureStorageModule.put (buildOk : Nat → Bool)
    (innerPut : BuiltStorage → Except String Unit) (s : ModuleState) :
    PromiseOutcome Unit × ModuleState :=
  moduleOp .PUT_FAILED buildOk innerPut s

/-- Bridge remove (part_006 lines 124-139): catch kind REMOVE_FAILED. -/
def IoReactNativeSecureStorageModule.remove (buildOk : Nat → Bool)
    (innerRemove : BuiltStorage → Except String Unit) (s : ModuleState) :
    PromiseOutcome Unit × ModuleState :=
  moduleOp .REMOVE_FAILED buildOk innerRemove s

/-- Bridge clear (part_006 lines 102-117): catch kind CLEAR_FAILED. -/
def IoReactNativeSecureStorageModule.clear (buildOk : Nat → Bool)
    (innerClear : BuiltStorage → Except String Unit) (s : ModuleState) :
    PromiseOutcome Unit × ModuleState :=
  moduleOp .CLEAR_FAILED buildOk innerClear s

/-- Bridge get (part_006 lines 78-95): a null result from the storage is the
dedicated VALUE_NOT_FOUND rejection with empty userInfo, a present value is
resolved through UTF-8 decoding (utf8 stands for
toString(StandardCharsets.UTF_8)), and a thrown exception is GET_FAILED. -/
def IoReactNativeSecureStorageModule.get (buildOk : Nat → Bool)
    (innerGet : BuiltStorage → Except String (Option (List Nat)))
    (utf8 : List Nat → String) (s : ModuleState) :
    PromiseOutcome String × ModuleState :=
  let p := resolveStorage buildOk s
  match p.1 with
  | none => (.rejected .SECURE_STORE_NOT_INITIALIZED [], p.2)
  | some b =>
    match innerGet b with
    | .ok (some bytes) => (.resolved (utf8 bytes), p.2)
    | .ok none => (.rejected .VALUE_NOT_FOUND [], p.2)
    | .error msg => (.rejected .GET_FAILED [(ERROR_USER_INFO_KEY, msg)], p.2)

/-- Legacy bridge setEnforceManualEncryption (part_005 lines 62-66): it takes
no boolean and unconditionally sets the flag to true. -/
def LegacyModule.setEnforceManualEncryption (s : ModuleState) : ModuleState :=
  { s with forceManualEncryption := true }

/-- The TypeScript layer (part_002 lines 69-75) forwards
setEnforceManualEncryption(isEnforced) to the native method; against the
legacy no-boolean native variant the argument is dropped. -/
def LegacyModule.tsSetEnforceManualEncryption (isEnforced : Bool)
    (s : ModuleState) : ModuleState :=
  LegacyModule.setEnforceManualEncryption s

/-- Legacy bridge remove (part_005 lines 140-156): same body as put and
clear, but the catch clause rejects with ModuleException.CLEAR_FAILED. -/
def LegacyModule.remove (buildOk : Nat → Bool)
    (innerRemove : BuiltStorage → Except String Unit) (s : ModuleState) :
    PromiseOutcome Unit × ModuleState :=
  moduleOp .CLEAR_FAILED buildOk innerRemove s

/-- What the iOS bridge catch clauses distinguish: a SecureStorageError or
any other Swift error (part_001 lines 240-244). -/
inductive SwiftThrown where
  | storageError (description : String) (code : Int)
  | otherError (localizedDescription : String)
deriving DecidableEq, Repr

/-- ModuleException cases of the iOS bridge (part_001 lines 249-255). -/
inductive IOSModuleException where
  | valueNotFound
  | getFailed
  | putFailed
  | clearFailed
  | removeFailed
  | keysRetrivialError
deriving DecidableEq, Repr

/-- Which ModuleException the keys() method of the iOS bridge rejects with
for a thrown error (part_001 lines 240-244): a SecureStorageError goes to
keysRetrivialError, every other error goes to putFailed. -/
def iosKeysCatchException : SwiftThrown → IOSModuleException
  | .storageError _ _ => .keysRetrivialError
  | .otherError _ => .putFailed

/-- Execution domain an operation body is submitted to: a named serial
dispatch queue, a freshly started thread (numbered by invocation), or the
calling thread itself. -/
inductive ExecDomain where
  | serialQueue (label : String)
  | freshThread (invocation : Nat)
  | callerThread
deriving DecidableEq, Repr

/-- The five public store operations. -/
inductive StoreOp where
  | opPut
  | opGet
  | opRemove
  | opClear
  | opKeys
deriving DecidableEq, Repr

/-- iOS bridge dispatch (part_001 lines 137-246): every method body goes with
queue.async to the single serial queue of the handle, labelled
rn-secure-storage-queue. -/
def iosDispatch : StoreOp → Nat → ExecDomain :=
  fun _ _ => .serialQueue "rn-secure-storage-queue"

/-- Android module dispatch (part_006): put, get, clear and remove each start
a brand new Thread (lines 57, 79, 103, 125), while keys runs directly on the
calling thread (lines 144-162).  n numbers the invocation; each started
Thread is a distinct one. -/
def androidDispatch : StoreOp → Nat → ExecDomain
  | .opKeys, _ => .callerThread
  | _, n => .freshThread n

/-- All operations of a handle run through one mutual-exclusion domain: one
serial queue receives the body of every operation invocation. -/
def singleMutualExclusionDomain
    (dispatch : StoreOp → Nat → ExecDomain) : Prop :=
  ∃ d, (∀ op n, dispatch op n = d) ∧
    ∃ label, d = ExecDomain.serialQueue label

/-- Sequential execution of bridge operations against one module: every list
entry carries the catch kind of the method and the outcome of its underlying
storage call. -/
def runOps (buildOk : Nat → Bool) :
    List (ErrorKind × (BuiltStorage → Except String Unit)) → ModuleState →
    List (PromiseOutcome Unit) × ModuleState
  | [], s => ([], s)
  | op :: rest, s =>
    let p := moduleOp op.1 buildOk op.2 s
    let q := runOps buildOk rest p.2
    (p.1 :: q.1, q.2)

/-- Data update keeps the (service, account) primary key, hence the match. -/
theorem matchesKey_setData (s k : String) (v : List Nat) (it : KCItem) :
    matchesKey s k { it with data := v } = matchesKey s k it := rfl

/-- Composing the key match with the data-update rewrite changes nothing,
because the rewrite keeps service and account. -/
theorem matchesKey_comp_update (s k : String) (v : List Nat) :
    (matchesKey s k ∘ fun x : KCItem =>
      if matchesKey s k x then { x with data := v } else x) = matchesKey s k := by
  funext x
  by_cases hx : matchesKey s k x = true
  · simp [Function.comp, hx, matchesKey_setData]
  · simp [Function.comp, hx]

/-- After SecItemUpdate rewrote the data of the matching items, the first
match still exists and now carries the new data. -/
theorem find?_update_data (s k : String) (v : List Nat) (kc : Keychain)
    (h : kc.any (matchesKey s k) = true) :
    ∃ it, (kc.map fun x =>
        if matchesKey s k x then { x with data := v } else x).find?
          (matchesKey s k) = some it ∧ it.data = v := by
  have hsome : (kc.find? (matchesKey s k)).isSome := by
    rw [List.find?_isSome]
    exact List.any_eq_true.mp h
  obtain ⟨it0, h0⟩ := Option.isSome_iff_exists.mp hsome
  have hp : matchesKey s k it0 = true := List.find?_some h0
  refine ⟨{ it0 with data := v }, ?_, rfl⟩
  rw [List.find?_map, matchesKey_comp_update, h0]
  simp [hp]

/-- A freshly appended item is found when no earlier item matched the key. -/
theorem find?_append_fresh (s k : String) (v : List Nat) :
    ∀ kc : Keychain, kc.any (matchesKey s k) = false →
    (kc ++ [KCItem.mk s k v]).find? (matchesKey s k) = some (KCItem.mk s k v) := by
  intro kc h
  induction kc with
  | nil =>
    rw [List.nil_append]
    apply List.find?_cons_of_pos
    simp [matchesKey]
  | cons a l ih =>
    simp only [List.any_cons, Bool.or_eq_false_iff] at h
    obtain ⟨ha, hl⟩ := h
    rw [List.cons_append, List.find?_cons_of_neg, ih hl]
    simp [ha]

/-- Round-trip core lemma: put always succeeds and a subsequent get on the
same key returns exactly the bytes just written, from any keychain state. -/
theorem get_after_put (s k : String) (v : List Nat) (kc : Keychain) :
    ∃ kc', SecureStorage.put s k v kc = .ok kc' ∧
      SecureStorage.get s k kc' = .ok (some v) := by
  by_cases h : kc.any (matchesKey s k) = true
  · obtain ⟨it, hf, hd⟩ := find?_update_data s k v kc h
    refine ⟨kc.map fun x =>
        if matchesKey s k x then { x with data := v } else x, ?_, ?_⟩
    · simp [SecureStorage.put, secItemAdd, secItemUpdate, h,
        errSecDuplicateItem, errSecSuccess]
    · simp [SecureStorage.get, secItemCopyMatchingOne, hf, hd,
        errSecItemNotFound, errSecSuccess]
  · have h' : kc.any (matchesKey s k) = false := by
      cases hb : List.any kc (matchesKey s k)
      · rfl
      · exact absurd hb h
    refine ⟨kc ++ [KCItem.mk s k v], ?_, ?_⟩
    · simp [SecureStorage.put, secItemAdd, h', errSecDuplicateItem,
        errSecSuccess]
    · simp [SecureStorage.get, secItemCopyMatchingOne,
        find?_append_fresh s k v kc h', errSecItemNotFound, errSecSuccess]

/-- C1: for every key k and every byte value v (the empty value and every
chunk-size class included, since v ranges over all byte lists), put(k, v)
followed by get(k) on the same store returns exactly v. -/
theorem put_get_roundtrip (serviceName k : String) (v : List Nat)
    (kc : Keychain) :
    ∃ kc', SecureStorage.put serviceName k v kc = .ok kc' ∧
      SecureStorage.get serviceName k kc' = .ok (some v) :=
  get_after_put serviceName k v kc

/-- C2: put(k, v1) then put(k, v2) then get(k) returns v2 and only v2; the
second put fully replaces the first value. -/
theorem put_put_get_overwrites (serviceName k : String) (v1 v2 : List Nat)
    (kc : Keychain) :
    ∃ kc1 kc2, SecureStorage.put serviceName k v1 kc = .ok kc1 ∧
      SecureStorage.put serviceName k v2 kc1 = .ok kc2 ∧
      SecureStorage.get serviceName k kc2 = .ok (some v2) := by
  obtain ⟨kc1, h1, _⟩ := get_after_put serviceName k v1 kc
  obtain ⟨kc2, h2, h3⟩ := get_after_put serviceName k v2 kc1
  exact ⟨kc1, kc2, h1, h2, h3⟩

/-- Removing every matching item leaves nothing that still matches. -/
theorem any_filter_not (p : KCItem → Bool) (kc : Keychain) :
    (kc.filter fun it => !(p it)).any p = false := by
  rw [Bool.eq_false_iff]
  intro h
  obtain ⟨x, hx, hpx⟩ := List.any_eq_true.mp h
  obtain ⟨_, hnx⟩ := List.mem_filter.mp hx
  simp [hpx] at hnx

/-- C4: remove on an absent key succeeds and changes nothing; clear on an
empty store succeeds and changes nothing; clear twice in a row gives the same
state and result as clear once. -/
theorem remove_clear_idempotent (serviceName k : String) (kc : Keychain) :
    (kc.any (matchesKey serviceName k) = false →
      SecureStorage.remove serviceName k kc = .ok kc) ∧
    (kc.any (fun it => it.service == serviceName) = false →
      SecureStorage.clear serviceName kc = .ok kc) ∧
    (∀ kc', SecureStorage.clear serviceName kc = .ok kc' →
      SecureStorage.clear serviceName kc' = .ok kc') := by
  refine ⟨?_, ?_, ?_⟩
  · intro h
    simp [SecureStorage.remove, secItemDeleteKey, h, errSecSuccess,
      errSecItemNotFound]
  · intro h
    simp [SecureStorage.clear, secItemDeleteService, h, errSecSuccess,
      errSecItemNotFound]
  · intro kc' h
    by_cases hs : kc.any (fun it => it.service == serviceName) = true
    · have hkc' : kc' = kc.filter fun it => !(it.service == serviceName) := by
        simp [SecureStorage.clear, secItemDeleteService, hs, errSecSuccess,
          errSecItemNotFound] at h
        exact h.symm
      have hempty :
          (kc.filter fun it => !(it.service == serviceName)).any
            (fun it => it.service == serviceName) = false :=
        any_filter_not _ kc
      rw [hkc']
      simp [SecureStorage.clear, secItemDeleteService, hempty, errSecSuccess,
        errSecItemNotFound]
    · have hs' : kc.any (fun it => it.service == serviceName) = false := by
        cases hb : kc.any (fun it => it.service == serviceName)
        · rfl
        · exact absurd hb hs
      have hkc' : kc' = kc := by
        simp [SecureStorage.clear, secItemDeleteService, hs', errSecSuccess,
          errSecItemNotFound] at h
        exact h.symm
      rw [hkc']
      simp [SecureStorage.clear, secItemDeleteService, hs', errSecSuccess,
        errSecItemNotFound]

/-- Closed instance of remove_clear_idempotent at a concrete store. -/
theorem remove_clear_idempotent_witness :
    SecureStorage.remove "svc" "missing" [KCItem.mk "other" "a" [1]] =
      .ok [KCItem.mk "other" "a" [1]] ∧
    SecureStorage.clear "svc" [KCItem.mk "other" "a" [1]] =
      .ok [KCItem.mk "other" "a" [1]] ∧
    SecureStorage.clear "svc" [KCItem.mk "svc" "a" [1]] = .ok [] ∧
    SecureStorage.clear "svc" [] = .ok [] :=
  ⟨(remove_clear_idempotent "svc" "missing" [KCItem.mk "other" "a" [1]]).1
      (by decide),
   (remove_clear_idempotent "svc" "missing" [KCItem.mk "other" "a" [1]]).2.1
      (by decide),
   by rfl,
   (remove_clear_idempotent "svc" "x" [KCItem.mk "svc" "a" [1]]).2.2 []
      (by rfl)⟩

/-- C5: on the iOS SecureStorage, get on an absent key is the normal
non-exceptional nil result, not an error of any kind, while get on a present
key returns its stored bytes; on the Android bridge a null result of the
underlying get becomes the dedicated VALUE_NOT_FOUND signal, never the
GET_FAILED error used for exceptions. -/
theorem get_not_found_is_normal (serviceName k : String) (kc : Keychain)
    (buildOk : Nat → Bool) (utf8 : List Nat → String) (bst : BuiltStorage)
    (ms : ModuleState) :
    (kc.find? (matchesKey serviceName k) = none →
      SecureStorage.get serviceName k kc = .ok none) ∧
    (∀ it, kc.find? (matchesKey serviceName k) = some it →
      SecureStorage.get serviceName k kc = .ok (some it.data)) ∧
    (ms.lazyStorage = some (some bst) →
      (IoReactNativeSecureStorageModule.get buildOk
        (fun _ => Except.ok none) utf8 ms).1 =
          PromiseOutcome.rejected .VALUE_NOT_FOUND []) := by
  refine ⟨?_, ?_, ?_⟩
  · intro h
    simp [SecureStorage.get, secItemCopyMatchingOne, h]
  · intro it h
    simp [SecureStorage.get, secItemCopyMatchingOne, h, errSecItemNotFound,
      errSecSuccess]
  · intro h
    simp [IoReactNativeSecureStorageModule.get, resolveStorage, h]

/-- Closed instance of get_not_found_is_normal: absent key gives ok none,
present key gives its bytes, and the Android bridge turns a null get result
into VALUE_NOT_FOUND. -/
theorem get_not_found_is_normal_witness :
    SecureStorage.get "svc" "absent" [KCItem.mk "svc" "a" [1, 2]] = .ok none ∧
    SecureStorage.get "svc" "a" [KCItem.mk "svc" "a" [1, 2]] =
      .ok (some [1, 2]) ∧
    (IoReactNativeSecureStorageModule.get (fun _ => true)
      (fun _ => Except.ok none) (fun _ => "")
      (ModuleState.mk false (some (some (BuiltStorage.mk false))) 1)).1 =
        PromiseOutcome.rejected .VALUE_NOT_FOUND [] :=
  ⟨(get_not_found_is_normal "svc" "absent" [KCItem.mk "svc" "a" [1, 2]]
      (fun _ => true) (fun _ => "") (BuiltStorage.mk false)
      (ModuleState.mk false (some (some (BuiltStorage.mk false))) 1)).1
      (by decide),
   (get_not_found_is_normal "svc" "a" [KCItem.mk "svc" "a" [1, 2]]
      (fun _ => true) (fun _ => "") (BuiltStorage.mk false)
      (ModuleState.mk false (some (some (BuiltStorage.mk false))) 1)).2.1
      (KCItem.mk "svc" "a" [1, 2]) (by decide),
   (get_not_found_is_normal "svc" "a" [KCItem.mk "svc" "a" [1, 2]]
      (fun _ => true) (fun _ => "") (BuiltStorage.mk false)
      (ModuleState.mk false (some (some (BuiltStorage.mk false))) 1)).2.2
      rfl⟩

/-- C6: starting from an empty store, put(k1, v) then put(k2, v) makes keys()
return exactly the set containing k1 and k2, and after clear() keys() returns
the empty set. -/
theorem keys_enumeration (serviceName k1 k2 : String) (v : List Nat) :
    ∃ kc1 kc2 l kc3,
      SecureStorage.put serviceName k1 v [] = .ok kc1 ∧
      SecureStorage.put serviceName k2 v kc1 = .ok kc2 ∧
      SecureStorage.keys serviceName kc2 = .ok l ∧
      (∀ x, x ∈ l ↔ x = k1 ∨ x = k2) ∧
      SecureStorage.clear serviceName kc2 = .ok kc3 ∧
      SecureStorage.keys serviceName kc3 = .ok [] := by
  have h1 : SecureStorage.put serviceName k1 v [] =
      .ok [KCItem.mk serviceName k1 v] := by
    simp [SecureStorage.put, secItemAdd, errSecDuplicateItem, errSecSuccess]
  by_cases hk : k1 = k2
  · subst hk
    refine ⟨[KCItem.mk serviceName k1 v], [KCItem.mk serviceName k1 v],
      [k1], [], h1, ?_, ?_, ?_, ?_, ?_⟩
    · simp [SecureStorage.put, secItemAdd, secItemUpdate, matchesKey,
        errSecDuplicateItem, errSecSuccess]
    · simp [SecureStorage.keys, secItemCopyMatchingAll, errSecItemNotFound,
        errSecSuccess]
    · intro x
      simp
    · simp [SecureStorage.clear, secItemDeleteService, errSecSuccess,
        errSecItemNotFound]
    · simp [SecureStorage.keys, secItemCopyMatchingAll, errSecItemNotFound]
  · refine ⟨[KCItem.mk serviceName k1 v],
      [KCItem.mk serviceName k1 v, KCItem.mk serviceName k2 v],
      [k1, k2], [], h1, ?_, ?_, ?_, ?_, ?_⟩
    · have hne : (k1 == k2) = false := by
        rw [beq_eq_false_iff_ne]
        exact hk
      simp [SecureStorage.put, secItemAdd, matchesKey, hne,
        errSecDuplicateItem, errSecSuccess]
    · simp [SecureStorage.keys, secItemCopyMatchingAll, errSecItemNotFound,
        errSecSuccess]
    · intro x
      simp
    · simp [SecureStorage.clear, secItemDeleteService, errSecSuccess,
        errSecItemNotFound]
    · simp [SecureStorage.keys, secItemCopyMatchingAll, errSecItemNotFound]

/-- C3 counterexample: on the Android module, two back-to-back put
invocations run on two distinct freshly started threads, so the operations
of that handle are not all issued through a single mutual-exclusion domain. -/
theorem android_ops_not_serialized :
    ¬ singleMutualExclusionDomain androidDispatch := by
  rintro ⟨d, hall, -⟩
  have h01 := (hall .opPut 1).trans (hall .opPut 0).symm
  simp [androidDispatch] at h01

/-- C3 (amended): on the iOS bridge every operation of the handle is
dispatched to the one serial queue of that handle, a single mutual-exclusion
domain; the Android module does not serialize its operations (see the
counterexample above). -/
theorem ios_ops_single_serial_queue :
    singleMutualExclusionDomain iosDispatch :=
  ⟨ExecDomain.serialQueue "rn-secure-storage-queue", fun _ _ => rfl,
    "rn-secure-storage-queue", rfl⟩

/-- C7: a setEnforceManualEncryption call before the first operation is
effective (the storage then gets built with the given flag), and once the
lazy storage is resolved, a later call changes neither the cached storage nor
the outcome of any subsequent operation. -/
theorem config_effective_only_before_first_op (b b2 : Bool)
    (buildOk : Nat → Bool) (s : ModuleState) (r : Option BuiltStorage) :
    (buildOk 0 = true →
      (resolveStorage buildOk
        (setEnforceManualEncryption b ModuleState.init)).1 =
          some (BuiltStorage.mk b)) ∧
    (s.lazyStorage = some r →
      ∀ (catchKind : ErrorKind) (inner : BuiltStorage → Except String Unit),
        (moduleOp catchKind buildOk inner
            (setEnforceManualEncryption b2 s)).1 =
          (moduleOp catchKind buildOk inner s).1 ∧
        ((moduleOp catchKind buildOk inner
            (setEnforceManualEncryption b2 s)).2).lazyStorage = some r) := by
  constructor
  · intro h
    simp [resolveStorage, setEnforceManualEncryption, ModuleState.init, h]
  · intro h catchKind inner
    cases r with
    | none =>
      constructor <;>
        simp [moduleOp, resolveStorage, setEnforceManualEncryption, h]
    | some bst =>
      cases hi : inner bst with
      | ok v =>
        constructor <;>
          simp [moduleOp, resolveStorage, setEnforceManualEncryption, h, hi]
      | error m =>
        constructor <;>
          simp [moduleOp, resolveStorage, setEnforceManualEncryption, h, hi]

/-- Closed instance of config_effective_only_before_first_op: configuration
before the first operation is picked up; after resolution a configuration
call leaves the cached storage and the put outcome unchanged. -/
theorem config_effective_only_before_first_op_witness :
    (resolveStorage (fun _ => true)
      (setEnforceManualEncryption true ModuleState.init)).1 =
        some (BuiltStorage.mk true) ∧
    ((moduleOp .PUT_FAILED (fun _ => true) (fun _ => .ok ())
        (setEnforceManualEncryption false
          (ModuleState.mk false (some (some (BuiltStorage.mk false))) 1))).1 =
      (moduleOp .PUT_FAILED (fun _ => true) (fun _ => .ok ())
        (ModuleState.mk false (some (some (BuiltStorage.mk false))) 1)).1 ∧
      ((moduleOp .PUT_FAILED (fun _ => true) (fun _ => .ok ())
        (setEnforceManualEncryption false
          (ModuleState.mk false (some (some (BuiltStorage.mk false)))
            1))).2).lazyStorage = some (some (BuiltStorage.mk false))) :=
  ⟨(config_effective_only_before_first_op true false (fun _ => true)
      (ModuleState.mk false (some (some (BuiltStorage.mk false))) 1)
      (some (BuiltStorage.mk false))).1 rfl,
   (config_effective_only_before_first_op true false (fun _ => true)
      (ModuleState.mk false (some (some (BuiltStorage.mk false))) 1)
      (some (BuiltStorage.mk false))).2 rfl .PUT_FAILED (fun _ => .ok ())⟩

/-- Once the lazy cell has cached a null storage, any bridge operation
rejects immediately with SECURE_STORE_NOT_INITIALIZED and leaves the state
untouched, whatever the builder would do on a retry. -/
theorem moduleOp_terminal (catchKind : ErrorKind) (buildOk : Nat → Bool)
    (inner : BuiltStorage → Except String Unit) (s : ModuleState)
    (h : s.lazyStorage = some none) :
    moduleOp catchKind buildOk inner s =
      (.rejected .SECURE_STORE_NOT_INITIALIZED [], s) := by
  simp [moduleOp, resolveStorage, h]

/-- In the terminal null-storage state every operation of a sequence is
rejected with SECURE_STORE_NOT_INITIALIZED and the state never changes. -/
theorem runOps_terminal (buildOk : Nat → Bool)
    (ops : List (ErrorKind × (BuiltStorage → Except String Unit)))
    (s : ModuleState) (h : s.lazyStorage = some none) :
    runOps buildOk ops s =
      (ops.map fun _ =>
        PromiseOutcome.rejected .SECURE_STORE_NOT_INITIALIZED [], s) := by
  induction ops with
  | nil => simp [runOps]
  | cons op rest ih =>
    simp only [runOps, moduleOp_terminal op.1 buildOk op.2 s h, ih,
      List.map_cons]

/-- C8: when the single builder attempt fails, the handle is terminal: every
operation of any subsequent sequence rejects immediately with
SECURE_STORE_NOT_INITIALIZED and the builder runs at most once in total,
even for a buildOk that would succeed on a retry. -/
theorem key_facility_unavailable_terminal (buildOk : Nat → Bool)
    (ops : List (ErrorKind × (BuiltStorage → Except String Unit)))
    (h : buildOk 0 = false) :
    (∀ o ∈ (runOps buildOk ops ModuleState.init).1,
      o = PromiseOutcome.rejected .SECURE_STORE_NOT_INITIALIZED []) ∧
    (runOps buildOk ops ModuleState.init).2.buildAttempts ≤ 1 := by
  cases ops with
  | nil =>
    constructor
    · intro o ho
      simp [runOps] at ho
    · simp [runOps, ModuleState.init]
  | cons op rest =>
    have h1 : moduleOp op.1 buildOk op.2 ModuleState.init =
        (PromiseOutcome.rejected .SECURE_STORE_NOT_INITIALIZED [],
          ModuleState.mk false (some none) 1) := by
      simp [moduleOp, resolveStorage, ModuleState.init, h]
    have h2 := runOps_terminal buildOk rest
      (ModuleState.mk false (some none) 1) rfl
    constructor
    · intro o ho
      simp only [runOps, h1, h2, List.mem_cons, List.mem_map] at ho
      rcases ho with rfl | ⟨x, hx, hh⟩
      · rfl
      · exact hh.symm
    · simp [runOps, h1, h2]

/-- Closed instance of key_facility_unavailable_terminal: with a builder that
fails on attempt 0 but would succeed from attempt 1 on, a put followed by a
remove both reject with SECURE_STORE_NOT_INITIALIZED and the builder ran only
once. -/
theorem key_facility_unavailable_terminal_witness :
    (∀ o ∈ (runOps (fun n => decide (1 ≤ n))
        [(.PUT_FAILED, fun _ => Except.ok ()),
         (.REMOVE_FAILED, fun _ => Except.error "late")]
        ModuleState.init).1,
      o = PromiseOutcome.rejected .SECURE_STORE_NOT_INITIALIZED []) ∧
    (runOps (fun n => decide (1 ≤ n))
        [(.PUT_FAILED, fun _ => Except.ok ()),
         (.REMOVE_FAILED, fun _ => Except.error "late")]
        ModuleState.init).2.buildAttempts ≤ 1 :=
  key_facility_unavailable_terminal (fun n => decide (1 ≤ n))
    [(.PUT_FAILED, fun _ => Except.ok ()),
     (.REMOVE_FAILED, fun _ => Except.error "late")] (by decide)

/-- C9 at its failing inputs: the legacy Android remove, on an exception from
the underlying storage, rejects with kind CLEAR_FAILED, and the generic catch
of the iOS keys method rejects with putFailed; in both places the kind fails
to identify the failing operation. -/
theorem error_kind_mislabels :
    (LegacyModule.remove (fun _ => true) (fun _ => Except.error "disk failure")
        ModuleState.init).1 =
      PromiseOutcome.rejected .CLEAR_FAILED
        [(ERROR_USER_INFO_KEY, "disk failure")] ∧
    ErrorKind.CLEAR_FAILED ≠ ErrorKind.REMOVE_FAILED ∧
    iosKeysCatchException (.otherError "boom") = .putFailed ∧
    IOSModuleException.putFailed ≠ IOSModuleException.keysRetrivialError := by
  exact ⟨rfl, by decide, rfl, by decide⟩

/-- C10: the legacy no-boolean native setEnforceManualEncryption always sets
the flag to true, so a TypeScript caller passing false before the first
operation still obtains a storage built with manual encryption enforced. -/
theorem legacy_set_enforce_always_true (b : Bool) (s : ModuleState)
    (buildOk : Nat → Bool) :
    (LegacyModule.tsSetEnforceManualEncryption b s).forceManualEncryption
        = true ∧
    (buildOk 0 = true →
      (resolveStorage buildOk
        (LegacyModule.tsSetEnforceManualEncryption false
          ModuleState.init)).1 = some (BuiltStorage.mk true)) := by
  constructor
  · rfl
  · intro h
    simp [resolveStorage, LegacyModule.tsSetEnforceManualEncryption,
      LegacyModule.setEnforceManualEncryption, ModuleState.init, h]

/-- Closed instance of legacy_set_enforce_always_true at the false argument
with an always-succeeding builder. -/
theorem legacy_set_enforce_always_true_witness :
    (LegacyModule.tsSetEnforceManualEncryption false
        ModuleState.init).forceManualEncryption = true ∧
    (resolveStorage (fun _ => true)
      (LegacyModule.tsSetEnforceManualEncryption false
        ModuleState.init)).1 = some (BuiltStorage.mk true) :=
  ⟨(legacy_set_enforce_always_true false ModuleState.init (fun _ => true)).1,
   (legacy_set_enforce_always_true false ModuleState.init
      (fun _ => true)).2 rfl⟩
